import Mathlib

/-!
Verification of the ory/kratos recovery-by-code strategy
(`selfservice/strategy/code/strategy_recovery.go` and the shared
`selfservice/flow` CSRF / method gate) as a shallow embedding.

The handler code is embedded as pure functions over an explicit `World`
state (code store, flow store, identity store, issued sessions).  The
persistence and notifier collaborators (`RecoveryCodePersister`,
`CodeSender`, `recovery.NewFlow`, `Flow.Valid`) are not part of the
excerpt; they are modelled from the specification and marked as such in
their doc comments.  Everything else follows the Go source line by line.
-/

namespace Kratos

/-- The `RecoveryCodeType` of the code package: self-service codes trigger the
address-verification side effect, administrative ones do not. -/
inductive RecoveryCodeType
  | selfService
  | administrative
deriving DecidableEq, Repr

/-- A one-time recovery code row as handled by `RecoveryCodePersister`. -/
structure RecoveryCode where
  flowID : Nat
  value : String
  usedAt : Option Nat
  expiresAt : Nat
  identityID : Nat
  recoveryAddress : String
  codeType : RecoveryCodeType
deriving DecidableEq, Repr

/-- A code is a live match for `(fid, v)` at time `now`: right flow, right
value, not yet used, not yet expired. -/
def RecoveryCode.isLiveMatch (fid : Nat) (v : String) (now : Nat)
    (c : RecoveryCode) : Bool :=
  c.flowID == fid && c.value == v && c.usedAt == none && decide (now < c.expiresAt)

/-- Mark the first live match for `(fid, v)` in the store as used at `now`. -/
def markFirstUsed : List RecoveryCode → Nat → String → Nat → List RecoveryCode
  | [], _, _, _ => []
  | c :: cs, fid, v, now =>
    if RecoveryCode.isLiveMatch fid v now c then { c with usedAt := some now } :: cs
    else c :: markFirstUsed cs fid v now

/-- Modelled from the spec: `RecoveryCodePersister.UseRecoveryCode` (the SQL
persister is not part of the excerpt).  Looks the code up by flow and value;
fails (`none`, i.e. `ErrCodeNotFound`) if it is absent, already used or
expired; on success atomically marks `UsedAt` and returns the code row
together with the updated store. -/
def useRecoveryCode (codes : List RecoveryCode) (fid : Nat) (v : String)
    (now : Nat) : Option (RecoveryCode × List RecoveryCode) :=
  match codes.find? (RecoveryCode.isLiveMatch fid v now) with
  | none => none
  | some c => some ({ c with usedAt := some now }, markFirstUsed codes fid v now)

/-- Modelled from the spec: `RecoveryCodePersister.DeleteRecoveryCodesOfFlow`
— idempotent bulk invalidation of every code of a flow. -/
def deleteRecoveryCodesOfFlow (codes : List RecoveryCode) (fid : Nat) :
    List RecoveryCode :=
  codes.filter (fun c => c.flowID != fid)

/-- An `identity.VerifiableAddress` (value, verified flag, timestamp and
status). -/
structure VerifiableAddress where
  value : String
  verified : Bool
  verifiedAt : Option Nat
  status : String
deriving DecidableEq, Repr

/-- An identity with its verifiable addresses and the recovery addresses it
is bound to. -/
structure Identity where
  id : Nat
  verifiableAddresses : List VerifiableAddress
  recoveryAddresses : List String
deriving DecidableEq, Repr

/-- The `flow.Type`: browser or API flow. -/
inductive FlowType
  | browser
  | api
deriving DecidableEq, Repr

/-- The `recovery.State`.  The Go type is a string; states other than the three
named ones land in the `default` branch of the state switch, so they are
kept as `other`. -/
inductive RecoveryState
  | chooseMethod
  | emailSent
  | passedChallenge
  | other (tag : String)
deriving DecidableEq, Repr

/-- The UI messages this slice of the code can attach to a flow. -/
inductive Message
  | recoveryEmailWithCodeSent
  | codeInvalidOrAlreadyUsed
  | retrySuccess
  | stateFailure
  | flowExpired (expiredAt : Nat)
  | parsedError
deriving DecidableEq, Repr

/-- A `recovery.Flow` record (the fields this slice of the code reads or
writes). -/
structure Flow where
  id : Nat
  ftype : FlowType
  state : RecoveryState
  active : Option String
  messages : List Message
  recoveredIdentityID : Option Nat
  dangerousSkipCSRFCheck : Bool
  expiresAt : Nat
  csrfToken : String
deriving DecidableEq, Repr

/-- An issued session: identity, assurance level and credential type, as
passed to `session.NewActiveSession`. -/
structure Session where
  identityID : Nat
  aal : String
  credentialType : String
deriving DecidableEq, Repr

/-- The shared mutable state behind the persistence collaborators. -/
structure World where
  codes : List RecoveryCode
  flows : List Flow
  identities : List Identity
  sessions : List Session
  nextFlowID : Nat
  now : Nat
deriving DecidableEq, Repr

/-- Embeds `UpdateRecoveryFlow`: replace the stored flow with the same id. -/
def World.updateFlow (w : World) (f : Flow) : World :=
  { w with flows := w.flows.map (fun g => if g.id == f.id then f else g) }

/-- Embeds `GetRecoveryFlow`: fetch a stored flow by id. -/
def World.findFlow (w : World) (fid : Nat) : Option Flow :=
  w.flows.find? (fun g => g.id == fid)

/-- Embeds `IdentityPool().GetIdentity`: fetch an identity by id. -/
def World.findIdentity (w : World) (iid : Nat) : Option Identity :=
  w.identities.find? (fun i => i.id == iid)

/-- Embeds `PrivilegedIdentityPool().UpdateVerifiableAddress`, modelled as replacing
the owning identity record. -/
def World.updateIdentity (w : World) (i : Identity) : World :=
  { w with identities := w.identities.map (fun j => if j.id == i.id then i else j) }

/-- The submitted payload (`recoverySubmitPayload`). -/
structure RecoverySubmitPayload where
  method : String
  code : String
  csrfToken : String
  flow : Nat
  email : String
deriving DecidableEq, Repr

/-- The per-request environment: decoded body (`none` is a decode failure),
the CSRF generator / regenerator outputs for this request, session presence,
the request headers the API CSRF check inspects, and the fresh random code
value the sender would issue. -/
structure Request where
  body : Option RecoverySubmitPayload
  isJSON : Bool
  genToken : String
  regenToken : String
  hasSession : Bool
  hasOriginHeader : Bool
  hasNonCfCookie : Bool
  freshCode : String
deriving DecidableEq, Repr

/-- The configuration values this slice of the code consults. -/
structure Config where
  disableAPIFlowEnforcement : Bool
  codeRegistrationEnabled : Bool
  codeLoginEnabled : Bool
  codeEnabled : Bool
  strategyEnabled : String → Bool
  flowLifespan : Nat
  codeLifespan : Nat

/-- The errors this slice of the code can produce. -/
inductive RecErr
  | strategyNotResponsible
  | endpointNotFound
  | originHeaderNeedsBrowserFlow
  | cookieHeaderNeedsBrowserFlow
  | csrfViolation
  | requiredEmail
  | expiredFlow (expiredAt : Nat)
  | flowNotFound
  | identityNotFound
  | decodeFailure
deriving DecidableEq, Repr

/-- The client-visible responses written by this slice of the code. -/
inductive Response
  | redirectNewFlow (id : Nat)
  | authenticatedRedirect
  | settingsRedirect (recoveryFlowID : Nat)
deriving DecidableEq, Repr

/-- What `Recover` returns to its caller: an error, `nil`, or
`ErrCompletedByStrategy` after writing a response. -/
inductive RecoverResult
  | failure (e : RecErr)
  | ok
  | completed (resp : Response)
deriving DecidableEq, Repr

/-- Collaborator calls made during a run, in order. -/
inductive Event
  | useCode (flowID : Nat) (value : String)
  | deleteCodes (flowID : Nat)
  | sendCode (flowID : Nat) (email : String)
  | updateFlow (id : Nat)
  | createFlow (id : Nat)
  | issueSession (identityID : Nat)
deriving DecidableEq, Repr

/-- Result of a run: the new world, the handler result and the call trace. -/
structure RecoverOut where
  world : World
  result : RecoverResult
  trace : List Event
deriving DecidableEq, Repr

/-- Embeds `flow.EnsureCSRF`: API flows skip the token but reject an `Origin`
header or any non-Cloudflare cookie (unless enforcement is disabled);
browser flows verify the submitted token against the generator's output. -/
def ensureCSRF (ftype : FlowType) (disableAPIFlowEnforcement : Bool)
    (generated actual : String) (hasOriginHeader hasNonCfCookie : Bool) :
    Option RecErr :=
  match ftype with
  | .api =>
    if disableAPIFlowEnforcement then none
    else if hasOriginHeader then some .originHeaderNeedsBrowserFlow
    else if hasNonCfCookie then some .cookieHeaderNeedsBrowserFlow
    else none
  | .browser =>
    if generated == actual then none else some .csrfViolation

/-- The kind of self-service flow being gated (`flow.FlowName`). -/
inductive FlowName
  | registration
  | login
  | recovery
  | verification
  | settings
deriving DecidableEq, Repr

/-- ASCII case folding of a character, for `strings.EqualFold`. -/
def charFold (c : Char) : Char :=
  if c.isUpper then Char.ofNat (c.toNat + 32) else c

/-- Embeds `strings.EqualFold`: case-insensitive string equality. -/
def eqFold (a b : String) : Bool :=
  a.data.map charFold == b.data.map charFold

/-- The enablement lookup inside `flow.MethodEnabledAndAllowed`: the code
strategy has per-flow-kind switches, every other strategy a single one.
`identity.CredentialsTypeCodeAuth` is the string "code" and the comparison
is `strings.EqualFold`. -/
def gateEnabled (fn : FlowName) (expected actual : String) (cfg : Config) : Bool :=
  if eqFold actual "code" then
    match fn with
    | .registration => cfg.codeRegistrationEnabled
    | .login => cfg.codeLoginEnabled
    | _ => cfg.codeEnabled
  else cfg.strategyEnabled expected

/-- Embeds `flow.MethodEnabledAndAllowed`: a mismatched method fails as
`ErrStrategyNotResponsible`; a matching but administratively disabled one as
`herodot.ErrNotFound` (endpoint disabled). -/
def methodEnabledAndAllowed (fn : FlowName) (expected actual : String)
    (cfg : Config) : Option RecErr :=
  if actual ≠ expected then some .strategyNotResponsible
  else if gateEnabled fn expected actual cfg then none
  else some .endpointNotFound

/-- Embeds `Strategy.RecoveryStrategyID()`: `recovery.RecoveryStrategyCode`, the
string "code". -/
def recoveryStrategyID : String := "code"

/-- Embeds `Strategy.RecoveryNodeGroup().String()`: `node.CodeGroup`, the string
"code". -/
def recoveryNodeGroup : String := "code"

/-- Embeds `Strategy.isCodeFlow`: the flow's active method tag equals this
strategy's node group (a NULL tag is not a code flow). -/
def isCodeFlow (f : Flow) : Bool :=
  f.active == some recoveryNodeGroup

/-- Inner loop of `Strategy.markRecoveryAddressVerified`: find the first
verifiable address whose value equals the recovery address; if it exists
and is not yet verified, mark it verified with a timestamp and completed
status. -/
def markAddressList (addr : String) (now : Nat) :
    List VerifiableAddress → List VerifiableAddress
  | [] => []
  | va :: rest =>
    if va.value == addr then
      if va.verified then va :: rest
      else { va with verified := true
                     verifiedAt := some now
                     status := "completed" } :: rest
    else va :: markAddressList addr now rest

/-- Embeds `Strategy.markRecoveryAddressVerified` on the identity record. -/
def markRecoveryAddressVerified (ident : Identity) (addr : String) (now : Nat) :
    Identity :=
  { ident with verifiableAddresses := markAddressList addr now ident.verifiableAddresses }

/-- Modelled from the spec: the `CodeSender` collaborator
(`SendRecoveryCode`, not part of the excerpt).  Looks up the identity bound
to the address; if none is bound it reports the unknown-address error
(`none`); otherwise it creates a fresh self-service recovery code for the
flow and sends it to the address. -/
def sendRecoveryCode (w : World) (f : Flow) (email freshCode : String)
    (cfg : Config) : Option World :=
  match w.identities.find? (fun i => i.recoveryAddresses.contains email) with
  | none => none
  | some i =>
    some { w with codes := w.codes ++ [{
      flowID := f.id
      value := freshCode
      usedAt := none
      expiresAt := w.now + cfg.codeLifespan
      identityID := i.id
      recoveryAddress := email
      codeType := .selfService }] }

/-- Modelled from the spec: `recovery.NewFlow` (not part of the excerpt) —
a brand-new recovery flow in the initial state, owned by this strategy,
with a fresh CSRF token and the configured lifespan. -/
def newRecoveryFlow (w : World) (req : Request) (ft : FlowType) (cfg : Config) :
    Flow :=
  { id := w.nextFlowID
    ftype := ft
    state := .chooseMethod
    active := some recoveryNodeGroup
    messages := []
    recoveredIdentityID := none
    dangerousSkipCSRFCheck := false
    expiresAt := w.now + cfg.flowLifespan
    csrfToken := req.regenToken }

/-- Embeds `Strategy.retryRecoveryFlowWithMessage`: create a brand-new flow carrying
the given message, persist it, redirect the client to it, and report
`ErrCompletedByStrategy`. -/
def retryRecoveryFlowWithMessage (w : World) (req : Request) (ft : FlowType)
    (msg : Message) (cfg : Config) : RecoverOut :=
  let f := { newRecoveryFlow w req ft cfg with messages := [msg] }
  { world := { w with flows := w.flows ++ [f], nextFlowID := w.nextFlowID + 1 }
    result := .completed (.redirectNewFlow f.id)
    trace := [.createFlow f.id] }

/-- Embeds `Strategy.retryRecoveryFlowWithError`: an `ExpiredError` gets the
specialized expiry message; any other error yields a new flow carrying the
parsed generic message. -/
def retryRecoveryFlowWithError (w : World) (req : Request) (ft : FlowType)
    (recErr : RecErr) (cfg : Config) : RecoverOut :=
  match recErr with
  | .expiredFlow t => retryRecoveryFlowWithMessage w req ft (.flowExpired t) cfg
  | _ =>
    let f := { newRecoveryFlow w req ft cfg with messages := [Message.parsedError] }
    { world := { w with flows := w.flows ++ [f], nextFlowID := w.nextFlowID + 1 }
      result := .completed (.redirectNewFlow f.id)
      trace := [.createFlow f.id] }

/-- Embeds `Strategy.recoveryIssueSession`: clear the messages, advance to
`PassedChallenge`, regenerate the CSRF token, record the recovered identity,
persist the flow, and issue an active session at assurance level "aal1"
with credential type "code_recovery" (`identity.CredentialsTypeRecoveryCode`).
The settings-flow handoff and post-recovery hooks are collaborators modelled
as succeeding. -/
def recoveryIssueSession (w : World) (req : Request) (f : Flow)
    (ident : Identity) : RecoverOut :=
  let f := { f with
    messages := []
    state := .passedChallenge
    csrfToken := req.regenToken
    recoveredIdentityID := some ident.id }
  let w := w.updateFlow f
  let sess : Session :=
    { identityID := ident.id, aal := "aal1", credentialType := "code_recovery" }
  let w := { w with sessions := w.sessions ++ [sess] }
  { world := w
    result := .completed (.settingsRedirect f.id)
    trace := [.updateFlow f.id, .issueSession ident.id] }

/-- Embeds `Strategy.recoveryUseCode`: consume the submitted code.  On
`ErrCodeNotFound` clear the messages, add the invalid-or-already-used
message, persist the flow and return no error.  On success fetch the bound
identity, mark the recovery address verified for self-service codes, and
issue the session. -/
def recoveryUseCode (w : World) (req : Request) (body : RecoverySubmitPayload)
    (f : Flow) : RecoverOut :=
  match useRecoveryCode w.codes f.id body.code w.now with
  | none =>
    let f := { f with messages := [Message.codeInvalidOrAlreadyUsed] }
    { world := w.updateFlow f
      result := .ok
      trace := [.useCode f.id body.code, .updateFlow f.id] }
  | some (code, codes₂) =>
    let w := { w with codes := codes₂ }
    match w.findIdentity code.identityID with
    | none =>
      { world := w
        result := .failure .identityNotFound
        trace := [.useCode f.id body.code] }
    | some ident =>
      let w :=
        if code.codeType == RecoveryCodeType.selfService then
          w.updateIdentity (markRecoveryAddressVerified ident code.recoveryAddress w.now)
        else w
      let out := recoveryIssueSession w req f ident
      { out with trace := Event.useCode f.id body.code :: out.trace }

/-- Embeds `Strategy.recoveryHandleFormSubmission`: require an email, re-check
CSRF, delete all previous codes of the flow, send a fresh code (swallowing
only the unknown-address error), rebuild the UI, advance to `EmailSent`
with the email-sent message, and persist the flow. -/
def recoveryHandleFormSubmission (w : World) (req : Request) (f : Flow)
    (body : RecoverySubmitPayload) (cfg : Config) : RecoverOut :=
  if body.email == "" then
    { world := w, result := .failure .requiredEmail, trace := [] }
  else
    match ensureCSRF f.ftype cfg.disableAPIFlowEnforcement req.genToken
        body.csrfToken req.hasOriginHeader req.hasNonCfCookie with
    | some e => { world := w, result := .failure e, trace := [] }
    | none =>
      let w := { w with codes := deleteRecoveryCodesOfFlow w.codes f.id }
      let w :=
        match sendRecoveryCode w f body.email req.freshCode cfg with
        | some w₂ => w₂
        | none => w
      let f := { f with
        active := some recoveryNodeGroup
        state := .emailSent
        messages := [Message.recoveryEmailWithCodeSent] }
      { world := w.updateFlow f
        result := .ok
        trace := [.deleteCodes f.id, .sendCode f.id body.email, .updateFlow f.id] }

/-- Embeds `Strategy.Recover`, the top-level submission handler: responsibility
check, body decoding, CSRF (with the `DangerousSkipCSRFCheck` escape and
the retry-with-browser-flow on violation), message reset, dispatch to the
use-code path when the flow is past `ChooseMethod` and no email was
submitted, the already-logged-in shortcut, the method gate, flow fetch and
validity (`Flow.Valid` is modelled from the spec as the expiry check), and
the state switch. -/
def recover (w : World) (req : Request) (f : Flow) (cfg : Config) : RecoverOut :=
  if ¬ isCodeFlow f then
    { world := w, result := .failure .strategyNotResponsible, trace := [] }
  else
    match req.body with
    | none => { world := w, result := .failure .decodeFailure, trace := [] }
    | some body =>
      match (if f.dangerousSkipCSRFCheck then none
             else ensureCSRF f.ftype cfg.disableAPIFlowEnforcement req.genToken
               body.csrfToken req.hasOriginHeader req.hasNonCfCookie) with
      | some e => retryRecoveryFlowWithError w req .browser e cfg
      | none =>
        if (f.state != RecoveryState.chooseMethod) && (body.email == "") then
          match methodEnabledAndAllowed .recovery recoveryStrategyID
              recoveryStrategyID cfg with
          | some e => { world := w, result := .failure e, trace := [] }
          | none => recoveryUseCode w req body { f with messages := [] }
        else if req.hasSession then
          { world := w, result := .completed .authenticatedRedirect, trace := [] }
        else
          match methodEnabledAndAllowed .recovery recoveryStrategyID
              body.method cfg with
          | some e => { world := w, result := .failure e, trace := [] }
          | none =>
            match w.findFlow body.flow with
            | none => { world := w, result := .failure .flowNotFound, trace := [] }
            | some fl =>
              if fl.expiresAt ≤ w.now then
                { world := w
                  result := .failure (.expiredFlow fl.expiresAt)
                  trace := [] }
              else
                match fl.state with
                | .chooseMethod => recoveryHandleFormSubmission w req fl body cfg
                | .emailSent => recoveryHandleFormSubmission w req fl body cfg
                | .passedChallenge =>
                  retryRecoveryFlowWithMessage w req fl.ftype .retrySuccess cfg
                | .other _ =>
                  retryRecoveryFlowWithMessage w req fl.ftype .stateFailure cfg

/-! ### Concrete fixtures used by witnesses and counterexamples -/

/-- A configuration with every strategy enabled and CSRF enforcement on. -/
def cfgEx : Config :=
  { disableAPIFlowEnforcement := false
    codeRegistrationEnabled := true
    codeLoginEnabled := true
    codeEnabled := true
    strategyEnabled := fun _ => true
    flowLifespan := 100
    codeLifespan := 100 }

/-- Like `cfgEx` but with the code strategy disabled for login flows. -/
def cfgLoginDisabled : Config := { cfgEx with codeLoginEnabled := false }

/-- An identity bound to the recovery address "a@x.com", unverified. -/
def identEx : Identity :=
  { id := 7
    verifiableAddresses :=
      [{ value := "a@x.com", verified := false, verifiedAt := none, status := "pending" }]
    recoveryAddresses := ["a@x.com"] }

/-- A live self-service recovery code for flow 1. -/
def codeEx : RecoveryCode :=
  { flowID := 1
    value := "123456"
    usedAt := none
    expiresAt := 50
    identityID := 7
    recoveryAddress := "a@x.com"
    codeType := .selfService }

/-- A browser recovery flow in state `EmailSent`. -/
def flowES : Flow :=
  { id := 1
    ftype := .browser
    state := .emailSent
    active := some "code"
    messages := []
    recoveredIdentityID := none
    dangerousSkipCSRFCheck := false
    expiresAt := 100
    csrfToken := "tok" }

/-- The same flow in the initial `ChooseMethod` state. -/
def flowCM : Flow := { flowES with state := .chooseMethod }

/-- The same flow in the terminal `PassedChallenge` state. -/
def flowPC : Flow := { flowES with state := .passedChallenge, recoveredIdentityID := some 7 }

/-- The same flow as an API flow. -/
def flowAPI : Flow := { flowES with ftype := .api }

/-- A world holding `flowES`, the live `codeEx` and the identity. -/
def wES : World :=
  { codes := [codeEx]
    flows := [flowES]
    identities := [identEx]
    sessions := []
    nextFlowID := 2
    now := 10 }

/-- A world holding the terminal flow and no live codes. -/
def wPC : World := { wES with flows := [flowPC], codes := [] }

/-- A world holding the initial-state flow and no live codes. -/
def wCM : World := { wES with flows := [flowCM], codes := [] }

/-- A world holding the API flow. -/
def wAPI : World := { wES with flows := [flowAPI] }

/-- A code-only submission carrying the valid CSRF token. -/
def reqCode : Request :=
  { body := some { method := "code", code := "123456", csrfToken := "tok", flow := 1, email := "" }
    isJSON := false
    genToken := "tok"
    regenToken := "tok2"
    hasSession := false
    hasOriginHeader := false
    hasNonCfCookie := false
    freshCode := "654321" }

/-- An email (resend) submission carrying the valid CSRF token. -/
def reqEmail : Request :=
  { reqCode with
      body := some { method := "code", code := "", csrfToken := "tok", flow := 1, email := "a@x.com" } }

/-- An email submission for an address bound to no identity. -/
def reqEmailUnknown : Request :=
  { reqCode with
      body := some { method := "code", code := "", csrfToken := "tok", flow := 1, email := "b@y.com" } }

/-- A code-only submission carrying a value no stored code matches. -/
def reqWrongCode : Request :=
  { reqCode with
      body := some { method := "code", code := "999999", csrfToken := "tok", flow := 1, email := "" } }

/-- A code-only submission whose CSRF token does not match the generator. -/
def reqBadToken : Request :=
  { reqCode with
      body := some { method := "code", code := "123456", csrfToken := "WRONG", flow := 1, email := "" } }

/-- An API submission carrying an `Origin` header. -/
def reqOrigin : Request := { reqCode with hasOriginHeader := true }

/-- Rank of the three named states along the forward direction of the state
machine; unnamed states rank lowest. -/
def stateRank : RecoveryState → Nat
  | .chooseMethod => 0
  | .emailSent => 1
  | .passedChallenge => 2
  | .other _ => 0

/-- The message the retry controller attaches for a given error: the
specialized expiry message for an `ExpiredError`, the generic parsed
message otherwise. -/
def retryMessageOf : RecErr → Message
  | .expiredFlow t => .flowExpired t
  | _ => .parsedError

/-! ### Helper lemmas about the code store -/

theorem stateRank_le_two (s : RecoveryState) : stateRank s ≤ 2 := by
  cases s <;> simp [stateRank]

/-- A code that is a live match at a later time is a live match at any
earlier time: liveness is only ever lost (by use or by expiry). -/
theorem isLiveMatch_of_le {fid : Nat} {v : String} {now now₂ : Nat}
    {c : RecoveryCode} (h : now ≤ now₂)
    (hl : RecoveryCode.isLiveMatch fid v now₂ c = true) :
    RecoveryCode.isLiveMatch fid v now c = true := by
  unfold RecoveryCode.isLiveMatch at hl ⊢
  simp only [Bool.and_eq_true, decide_eq_true_eq] at hl ⊢
  exact ⟨hl.1, lt_of_le_of_lt h hl.2⟩

/-- The call `useRecoveryCode` fails exactly when no live match exists. -/
theorem useRecoveryCode_eq_none_iff (codes : List RecoveryCode) (fid : Nat)
    (v : String) (now : Nat) :
    useRecoveryCode codes fid v now = none ↔
      codes.find? (RecoveryCode.isLiveMatch fid v now) = none := by
  unfold useRecoveryCode
  cases codes.find? (RecoveryCode.isLiveMatch fid v now) <;> simp

/-- A code whose `UsedAt` is set is never a live match. -/
theorem isLiveMatch_used_false (fid : Nat) (v : String) (now t : Nat)
    (c : RecoveryCode) :
    RecoveryCode.isLiveMatch fid v now { c with usedAt := some t } = false := by
  unfold RecoveryCode.isLiveMatch
  simp

/-- Consuming twice with the same value on the same flow: when the store
holds at most one live match, a successful consumption leaves no live match
behind, so the second call fails. -/
theorem useRecoveryCode_second_none :
    ∀ (codes : List RecoveryCode) (fid : Nat) (v : String) (now now₂ : Nat)
      (c : RecoveryCode) (codes₂ : List RecoveryCode),
      codes.countP (RecoveryCode.isLiveMatch fid v now) ≤ 1 →
      now ≤ now₂ →
      useRecoveryCode codes fid v now = some (c, codes₂) →
      useRecoveryCode codes₂ fid v now₂ = none := by
  intro codes
  induction codes with
  | nil =>
    intro fid v now now₂ c codes₂ _ _ huse
    simp [useRecoveryCode] at huse
  | cons d ds ih =>
    intro fid v now now₂ c codes₂ huniq hle huse
    by_cases hd : RecoveryCode.isLiveMatch fid v now d = true
    · -- the head is consumed; no other live match existed
      have hcnt : ds.countP (RecoveryCode.isLiveMatch fid v now) = 0 := by
        rw [List.countP_cons, if_pos hd] at huniq
        omega
      have hnone : ∀ x ∈ ds, ¬ RecoveryCode.isLiveMatch fid v now x = true := by
        intro x hx
        have := List.countP_eq_zero.mp hcnt x hx
        simp [this]
      have hcodes₂ : codes₂ = { d with usedAt := some now } :: ds := by
        unfold useRecoveryCode at huse
        rw [List.find?_cons_of_pos _ hd] at huse
        simp only [Option.some.injEq, Prod.mk.injEq] at huse
        rw [← huse.2]
        simp only [markFirstUsed]
        rw [if_pos hd]
      rw [useRecoveryCode_eq_none_iff, hcodes₂]
      apply List.find?_eq_none.mpr
      intro x hx
      rcases List.mem_cons.mp hx with hx | hx
      · rw [hx]
        simp [isLiveMatch_used_false]
      · intro hlive
        exact hnone x hx (isLiveMatch_of_le hle hlive)
    · -- the head is untouched; recurse on the tail
      have hd₂ : ¬ RecoveryCode.isLiveMatch fid v now₂ d = true := by
        intro hlive
        exact hd (isLiveMatch_of_le hle hlive)
      have hfind : (d :: ds).find? (RecoveryCode.isLiveMatch fid v now) =
          ds.find? (RecoveryCode.isLiveMatch fid v now) := by
        rw [List.find?_cons_of_neg _ hd]
      unfold useRecoveryCode at huse
      rw [hfind] at huse
      have hcnt : ds.countP (RecoveryCode.isLiveMatch fid v now) ≤ 1 := by
        rw [List.countP_cons, if_neg hd] at huniq
        omega
      rcases hds : ds.find? (RecoveryCode.isLiveMatch fid v now) with _ | c₀
      · rw [hds] at huse
        simp at huse
      · rw [hds] at huse
        simp only [Option.some.injEq, Prod.mk.injEq] at huse
        have hrec : useRecoveryCode ds fid v now =
            some ({ c₀ with usedAt := some now }, markFirstUsed ds fid v now) := by
          unfold useRecoveryCode
          rw [hds]
        have htail := ih fid v now now₂ { c₀ with usedAt := some now }
          (markFirstUsed ds fid v now) hcnt hle hrec
        have hcodes₂ : codes₂ = d :: markFirstUsed ds fid v now := by
          rw [← huse.2]
          simp only [markFirstUsed]
          rw [if_neg hd]
        rw [useRecoveryCode_eq_none_iff, hcodes₂]
        apply List.find?_eq_none.mpr
        intro x hx
        rcases List.mem_cons.mp hx with hx | hx
        · rw [hx]; exact hd₂
        · exact List.find?_eq_none.mp ((useRecoveryCode_eq_none_iff _ _ _ _).mp htail) x hx

/-- A store in which every code for `(fid, v)` is already used yields
`CodeNotFound`. -/
theorem useRecoveryCode_used_none (codes : List RecoveryCode) (fid : Nat)
    (v : String) (now : Nat)
    (h : ∀ c ∈ codes, c.flowID = fid → c.value = v → c.usedAt ≠ none) :
    useRecoveryCode codes fid v now = none := by
  rw [useRecoveryCode_eq_none_iff]
  apply List.find?_eq_none.mpr
  intro x hx hlive
  unfold RecoveryCode.isLiveMatch at hlive
  simp only [Bool.and_eq_true, beq_iff_eq, decide_eq_true_eq] at hlive
  obtain ⟨⟨⟨h1, h2⟩, h3⟩, _⟩ := hlive
  exact h x hx h1 h2 h3

/-- Claim C1: consuming a recovery code twice with the same value on the
same flow succeeds exactly once — when the store holds at most one live
match (which issuance guarantees), the second call after a successful one
yields `CodeNotFound`; and a code whose `UsedAt` is set can never be
consumed again. -/
theorem recovery_code_single_use :
    (∀ (codes : List RecoveryCode) (fid : Nat) (v : String) (now now₂ : Nat)
        (c : RecoveryCode) (codes₂ : List RecoveryCode),
        codes.countP (RecoveryCode.isLiveMatch fid v now) ≤ 1 →
        now ≤ now₂ →
        useRecoveryCode codes fid v now = some (c, codes₂) →
        useRecoveryCode codes₂ fid v now₂ = none)
  ∧ (∀ (codes : List RecoveryCode) (fid : Nat) (v : String) (now : Nat),
        (∀ c ∈ codes, c.flowID = fid → c.value = v → c.usedAt ≠ none) →
        useRecoveryCode codes fid v now = none) :=
  ⟨useRecoveryCode_second_none, useRecoveryCode_used_none⟩

/-- Witness for C1 at the concrete store `[codeEx]`. -/
theorem recovery_code_single_use_witness :
    useRecoveryCode (markFirstUsed [codeEx] 1 "123456" 10) 1 "123456" 11 = none ∧
    useRecoveryCode [{ codeEx with usedAt := some 10 }] 1 "123456" 11 = none := by
  constructor
  · exact recovery_code_single_use.1 [codeEx] 1 "123456" 10 11
      { codeEx with usedAt := some 10 } (markFirstUsed [codeEx] 1 "123456" 10)
      (by decide) (by decide) (by decide)
  · exact recovery_code_single_use.2 [{ codeEx with usedAt := some 10 }] 1 "123456" 11
      (by decide)

/-- Counterexample for C9 as stated: a mismatched method string makes the
gate fail as `StrategyNotResponsible` (internal dispatch-elsewhere), not as
"not found". -/
theorem method_gate_mismatch_counterexample :
    methodEnabledAndAllowed FlowName.recovery "code" "link" cfgEx =
      some RecErr.strategyNotResponsible
  ∧ RecErr.strategyNotResponsible ≠ RecErr.endpointNotFound := by
  constructor
  · decide
  · decide

/-- Claim C9 (amended): the gate succeeds exactly when the requested method
string equals the expected strategy identifier and that strategy is
administratively enabled for the flow kind being executed; a mismatched
method fails as `StrategyNotResponsible` (propagated for dispatch
elsewhere), while a matching but disabled one fails as "not found" so that
disabled features look absent rather than forbidden. -/
theorem method_gate_amended (fn : FlowName) (expected actual : String)
    (cfg : Config) :
    (methodEnabledAndAllowed fn expected actual cfg = none ↔
      actual = expected ∧ gateEnabled fn expected actual cfg = true)
  ∧ (actual ≠ expected →
      methodEnabledAndAllowed fn expected actual cfg =
        some RecErr.strategyNotResponsible)
  ∧ (actual = expected → gateEnabled fn expected actual cfg = false →
      methodEnabledAndAllowed fn expected actual cfg =
        some RecErr.endpointNotFound) := by
  refine ⟨?_, ?_, ?_⟩
  · unfold methodEnabledAndAllowed
    by_cases h : actual = expected
    · rw [if_neg (by simp [h])]
      by_cases hg : gateEnabled fn expected actual cfg = true
      · simp [h, hg]
      · simp [h, hg]
    · simp [h]
  · intro h
    unfold methodEnabledAndAllowed
    rw [if_pos h]
  · intro h hg
    unfold methodEnabledAndAllowed
    rw [if_neg (by simp [h]), if_neg (by simp [hg])]

/-- Witness for C9 at a concrete disabled configuration. -/
theorem method_gate_amended_witness :
    methodEnabledAndAllowed FlowName.login "code" "code" cfgLoginDisabled =
      some RecErr.endpointNotFound :=
  (method_gate_amended FlowName.login "code" "code" cfgLoginDisabled).2.2
    rfl (by decide)

/-! ### Branch equations for `recover` -/

/-- When the CSRF check fails (and is not skipped), `Recover` hands the
error to the retry controller with the hardcoded browser flow type. -/
theorem recover_csrf_failure (w : World) (req : Request) (f : Flow)
    (cfg : Config) (body : RecoverySubmitPayload) (e : RecErr)
    (hactive : isCodeFlow f = true)
    (hbody : req.body = some body)
    (hskip : f.dangerousSkipCSRFCheck = false)
    (hcsrf : ensureCSRF f.ftype cfg.disableAPIFlowEnforcement req.genToken
      body.csrfToken req.hasOriginHeader req.hasNonCfCookie = some e) :
    recover w req f cfg = retryRecoveryFlowWithError w req .browser e cfg := by
  unfold recover
  rw [hbody, hskip, if_neg (by simp [hactive])]
  simp only [Bool.false_eq_true, if_false, hcsrf]

/-- When the CSRF check passes, the flow is past `ChooseMethod`, no email
was submitted, and the strategy is enabled, `Recover` dispatches to the
use-code path (with the flow's messages reset). -/
theorem recover_to_useCode (w : World) (req : Request) (f : Flow)
    (cfg : Config) (body : RecoverySubmitPayload)
    (hactive : isCodeFlow f = true)
    (hbody : req.body = some body)
    (hcsrf : (if f.dangerousSkipCSRFCheck then none
              else ensureCSRF f.ftype cfg.disableAPIFlowEnforcement req.genToken
                body.csrfToken req.hasOriginHeader req.hasNonCfCookie) = none)
    (hbranch : ((f.state != RecoveryState.chooseMethod) && (body.email == "")) = true)
    (hgate : methodEnabledAndAllowed .recovery recoveryStrategyID
      recoveryStrategyID cfg = none) :
    recover w req f cfg = recoveryUseCode w req body { f with messages := [] } := by
  unfold recover
  rw [hbody, if_neg (by simp [hactive])]
  simp only [hcsrf, hbranch, if_true, hgate]

/-- When an email is submitted (or the flow is still in `ChooseMethod`),
the user is not logged in, the gate passes, and the fetched flow is valid
and pre-terminal, `Recover` dispatches to the form-submission path. -/
theorem recover_to_formSubmission (w : World) (req : Request) (f : Flow)
    (cfg : Config) (body : RecoverySubmitPayload) (fl : Flow)
    (hactive : isCodeFlow f = true)
    (hbody : req.body = some body)
    (hcsrf : (if f.dangerousSkipCSRFCheck then none
              else ensureCSRF f.ftype cfg.disableAPIFlowEnforcement req.genToken
                body.csrfToken req.hasOriginHeader req.hasNonCfCookie) = none)
    (hbranch : ((f.state != RecoveryState.chooseMethod) && (body.email == "")) = false)
    (hsession : req.hasSession = false)
    (hgate : methodEnabledAndAllowed .recovery recoveryStrategyID
      body.method cfg = none)
    (hfind : w.findFlow body.flow = some fl)
    (hvalid : ¬ fl.expiresAt ≤ w.now)
    (hstate : fl.state = RecoveryState.chooseMethod ∨
      fl.state = RecoveryState.emailSent) :
    recover w req f cfg = recoveryHandleFormSubmission w req fl body cfg := by
  unfold recover
  rw [hbody, if_neg (by simp [hactive])]
  simp only [hcsrf, hbranch, if_false, hsession, hgate, hfind, if_neg hvalid]
  rcases hstate with h | h <;> rw [h] <;> rfl

/-- When an email is submitted to a flow in a state the switch sends to the
retry controller (`PassedChallenge` or unknown), `Recover` creates a fresh
flow with the corresponding message. -/
theorem recover_to_retryMessage (w : World) (req : Request) (f : Flow)
    (cfg : Config) (body : RecoverySubmitPayload) (fl : Flow)
    (hactive : isCodeFlow f = true)
    (hbody : req.body = some body)
    (hcsrf : (if f.dangerousSkipCSRFCheck then none
              else ensureCSRF f.ftype cfg.disableAPIFlowEnforcement req.genToken
                body.csrfToken req.hasOriginHeader req.hasNonCfCookie) = none)
    (hbranch : ((f.state != RecoveryState.chooseMethod) && (body.email == "")) = false)
    (hsession : req.hasSession = false)
    (hgate : methodEnabledAndAllowed .recovery recoveryStrategyID
      body.method cfg = none)
    (hfind : w.findFlow body.flow = some fl)
    (hvalid : ¬ fl.expiresAt ≤ w.now)
    (hstate : fl.state = RecoveryState.passedChallenge) :
    recover w req f cfg =
      retryRecoveryFlowWithMessage w req fl.ftype .retrySuccess cfg := by
  unfold recover
  rw [hbody, if_neg (by simp [hactive])]
  simp only [hcsrf, hbranch, if_false, hsession, hgate, hfind, if_neg hvalid]
  rw [hstate]
  rfl

/-- The error-driven retry is the message-driven retry at `retryMessageOf`. -/
theorem retryError_spec (w : World) (req : Request) (ft : FlowType)
    (e : RecErr) (cfg : Config) :
    retryRecoveryFlowWithError w req ft e cfg =
      retryRecoveryFlowWithMessage w req ft (retryMessageOf e) cfg := by
  cases e <;> rfl

/-! ### Claims C7 and C8: CSRF rejection and the retry controller -/

/-- Claim C7: a browser-flow submission whose CSRF token does not match the
per-request generated token is rejected before any state mutation: codes,
identities and sessions are untouched, every stored flow survives
unchanged, and the only effect is a brand-new retry flow the client is
redirected to. -/
theorem csrf_rejection_before_mutation (w : World) (req : Request) (f : Flow)
    (cfg : Config) (body : RecoverySubmitPayload)
    (hactive : isCodeFlow f = true)
    (hbody : req.body = some body)
    (hskip : f.dangerousSkipCSRFCheck = false)
    (hbrowser : f.ftype = .browser)
    (hmismatch : (req.genToken == body.csrfToken) = false) :
    (recover w req f cfg).world.codes = w.codes
  ∧ (recover w req f cfg).world.identities = w.identities
  ∧ (recover w req f cfg).world.sessions = w.sessions
  ∧ (recover w req f cfg).world.flows =
      w.flows ++ [{ newRecoveryFlow w req .browser cfg with
                      messages := [Message.parsedError] }]
  ∧ (recover w req f cfg).result = .completed (.redirectNewFlow w.nextFlowID)
  ∧ ∀ g ∈ w.flows, g ∈ (recover w req f cfg).world.flows := by
  have hens : ensureCSRF f.ftype cfg.disableAPIFlowEnforcement req.genToken
      body.csrfToken req.hasOriginHeader req.hasNonCfCookie =
      some RecErr.csrfViolation := by
    rw [hbrowser]
    unfold ensureCSRF
    rw [hmismatch]
    rfl
  rw [recover_csrf_failure w req f cfg body RecErr.csrfViolation hactive hbody
    hskip hens]
  refine ⟨rfl, rfl, rfl, rfl, rfl, ?_⟩
  intro g hg
  exact List.mem_append_left _ hg

/-- Witness for C7 at the concrete mismatched-token request. -/
theorem csrf_rejection_witness :
    (recover wES reqBadToken flowES cfgEx).world.flows =
      wES.flows ++ [{ newRecoveryFlow wES reqBadToken .browser cfgEx with
                        messages := [Message.parsedError] }]
  ∧ (recover wES reqBadToken flowES cfgEx).result =
      .completed (.redirectNewFlow 2) := by
  have h := csrf_rejection_before_mutation wES reqBadToken flowES cfgEx
    { method := "code", code := "123456", csrfToken := "WRONG", flow := 1, email := "" }
    (by decide) rfl rfl rfl (by decide)
  exact ⟨h.2.2.2.1, h.2.2.2.2.1⟩

/-- Counterexample for C8 as stated: an API flow failing the API CSRF check
(an `Origin` header is present) is retried with a brand-new flow of
*browser* type, not the failed flow's own type. -/
theorem retry_flow_type_counterexample :
    (recover wAPI reqOrigin flowAPI cfgEx).world.flows =
      [flowAPI, { newRecoveryFlow wAPI reqOrigin .browser cfgEx with
                    messages := [Message.parsedError] }]
  ∧ (newRecoveryFlow wAPI reqOrigin .browser cfgEx).ftype = FlowType.browser
  ∧ flowAPI.ftype = FlowType.api := by
  refine ⟨?_, rfl, rfl⟩
  decide

/-- Claim C8 (amended): on a flow-invalidating error the retry controller
creates a brand-new flow of the type chosen by the call site — the failed
flow's type everywhere except the CSRF path of `Recover`, which always
passes the browser type — carrying the specialized expiry message for an
`ExpiredError` and the generic parsed message otherwise, persists it, and
responds with the new flow's identifier; every previously stored flow
survives untouched, so the old flow is never resumed. -/
theorem retry_controller_amended :
    (∀ (w : World) (req : Request) (ft : FlowType) (e : RecErr) (cfg : Config),
       (retryRecoveryFlowWithError w req ft e cfg).world.flows =
         w.flows ++ [{ newRecoveryFlow w req ft cfg with
                         messages := [retryMessageOf e] }]
     ∧ (newRecoveryFlow w req ft cfg).ftype = ft
     ∧ (newRecoveryFlow w req ft cfg).id = w.nextFlowID
     ∧ (retryRecoveryFlowWithError w req ft e cfg).result =
         .completed (.redirectNewFlow w.nextFlowID)
     ∧ ∀ g ∈ w.flows, g ∈ (retryRecoveryFlowWithError w req ft e cfg).world.flows)
  ∧ (∀ (w : World) (req : Request) (f : Flow) (cfg : Config)
       (body : RecoverySubmitPayload) (e : RecErr),
       isCodeFlow f = true → req.body = some body →
       f.dangerousSkipCSRFCheck = false →
       ensureCSRF f.ftype cfg.disableAPIFlowEnforcement req.genToken
         body.csrfToken req.hasOriginHeader req.hasNonCfCookie = some e →
       recover w req f cfg = retryRecoveryFlowWithError w req .browser e cfg) := by
  constructor
  · intro w req ft e cfg
    rw [retryError_spec]
    exact ⟨rfl, rfl, rfl, rfl, fun g hg => List.mem_append_left _ hg⟩
  · intro w req f cfg body e h1 h2 h3 h4
    exact recover_csrf_failure w req f cfg body e h1 h2 h3 h4

/-- Witness for C8 at the concrete API flow with an `Origin` header. -/
theorem retry_controller_amended_witness :
    recover wAPI reqOrigin flowAPI cfgEx =
      retryRecoveryFlowWithError wAPI reqOrigin .browser
        RecErr.originHeaderNeedsBrowserFlow cfgEx :=
  retry_controller_amended.2 wAPI reqOrigin flowAPI cfgEx
    { method := "code", code := "123456", csrfToken := "tok", flow := 1, email := "" }
    RecErr.originHeaderNeedsBrowserFlow (by decide) rfl rfl (by decide)

/-! ### Claim C3: CodeNotFound is recoverable in place -/

/-- With the code strategy enabled, the recovery-internal method gate
(called with expected = actual = "code") passes. -/
theorem recovery_gate_none (cfg : Config) (h : cfg.codeEnabled = true) :
    methodEnabledAndAllowed .recovery recoveryStrategyID recoveryStrategyID
      cfg = none := by
  have hg : gateEnabled .recovery recoveryStrategyID recoveryStrategyID cfg =
      cfg.codeEnabled := by
    unfold gateEnabled
    rw [if_pos (by decide)]
  unfold methodEnabledAndAllowed
  rw [if_neg (by simp), hg, h]
  rfl

/-- The `ErrCodeNotFound` branch of `recoveryUseCode`. -/
theorem recoveryUseCode_notFound (w : World) (req : Request)
    (body : RecoverySubmitPayload) (f : Flow)
    (h : useRecoveryCode w.codes f.id body.code w.now = none) :
    recoveryUseCode w req body f =
      { world := w.updateFlow { f with messages := [Message.codeInvalidOrAlreadyUsed] }
        result := .ok
        trace := [.useCode f.id body.code, .updateFlow f.id] } := by
  unfold recoveryUseCode
  rw [h]

/-- Claim C3: when the code store reports `CodeNotFound`, the handler
replaces the flow's UI messages with the invalid-or-already-used message,
persists that same flow — still in its pre-terminal `EmailSent` state —
returns no error, and issues no new flow. -/
theorem code_not_found_keeps_flow_alive (w : World) (req : Request) (f : Flow)
    (cfg : Config) (body : RecoverySubmitPayload)
    (hactive : isCodeFlow f = true)
    (hbody : req.body = some body)
    (hcsrf : (if f.dangerousSkipCSRFCheck then none
              else ensureCSRF f.ftype cfg.disableAPIFlowEnforcement req.genToken
                body.csrfToken req.hasOriginHeader req.hasNonCfCookie) = none)
    (hstate : f.state = RecoveryState.emailSent)
    (hemail : body.email = "")
    (henabled : cfg.codeEnabled = true)
    (hnotfound : useRecoveryCode w.codes f.id body.code w.now = none) :
    (recover w req f cfg).result = RecoverResult.ok
  ∧ (recover w req f cfg).world =
      w.updateFlow { f with messages := [Message.codeInvalidOrAlreadyUsed] }
  ∧ (recover w req f cfg).world.flows.length = w.flows.length
  ∧ ({ f with messages := [Message.codeInvalidOrAlreadyUsed] } : Flow).state =
      RecoveryState.emailSent
  ∧ ∀ i, Event.createFlow i ∉ (recover w req f cfg).trace := by
  have hbranch : ((f.state != RecoveryState.chooseMethod) && (body.email == "")) = true := by
    rw [hstate, hemail]
    rfl
  rw [recover_to_useCode w req f cfg body hactive hbody hcsrf hbranch
    (recovery_gate_none cfg henabled)]
  rw [recoveryUseCode_notFound w req body { f with messages := [] } hnotfound]
  refine ⟨rfl, rfl, by simp [World.updateFlow], hstate, ?_⟩
  intro i hmem
  simp at hmem

/-- Witness for C3 at the concrete wrong-code submission. -/
theorem code_not_found_witness :
    (recover wES reqWrongCode flowES cfgEx).result = RecoverResult.ok
  ∧ (recover wES reqWrongCode flowES cfgEx).world =
      wES.updateFlow { flowES with messages := [Message.codeInvalidOrAlreadyUsed] } := by
  have h := code_not_found_keeps_flow_alive wES reqWrongCode flowES cfgEx
    { method := "code", code := "999999", csrfToken := "tok", flow := 1, email := "" }
    (by decide) rfl rfl rfl rfl rfl (by decide)
  exact ⟨h.1, h.2.1⟩

/-! ### Claim C2: state monotonicity -/

/-- Members of an updated flow store are the replacement or an untouched
old flow with a different id. -/
theorem mem_updateFlow_flows {w : World} {f g₂ : Flow}
    (h : g₂ ∈ (w.updateFlow f).flows) :
    g₂ = f ∨ (g₂ ∈ w.flows ∧ (g₂.id == f.id) = false) := by
  unfold World.updateFlow at h
  simp only [List.mem_map] at h
  obtain ⟨g₁, hg₁, heq⟩ := h
  by_cases hc : (g₁.id == f.id) = true
  · left
    rw [← heq, if_pos hc]
  · right
    rw [← heq, if_neg hc]
    exact ⟨hg₁, by simpa using hc⟩

/-- In a store with pairwise distinct flow ids, equal ids mean equal flows. -/
theorem flows_id_inj {l : List Flow} (hnd : (l.map Flow.id).Nodup)
    {a b : Flow} (ha : a ∈ l) (hb : b ∈ l) (hid : a.id = b.id) : a = b :=
  List.inj_on_of_nodup_map hnd ha hb hid

/-- The sender only ever adds a code: every other component of the world is
untouched. -/
theorem sendRecoveryCode_parts (w : World) (f : Flow) (email fc : String)
    (cfg : Config) (w₂ : World)
    (h : sendRecoveryCode w f email fc cfg = some w₂) :
    w₂.flows = w.flows ∧ w₂.identities = w.identities ∧
    w₂.sessions = w.sessions ∧ w₂.nextFlowID = w.nextFlowID ∧ w₂.now = w.now := by
  unfold sendRecoveryCode at h
  split at h
  · simp at h
  · simp only [Option.some.injEq] at h
    rw [← h]
    exact ⟨rfl, rfl, rfl, rfl, rfl⟩

/-- The identity-lookup-failure branch of `recoveryUseCode`. -/
theorem recoveryUseCode_noIdentity (w : World) (req : Request)
    (body : RecoverySubmitPayload) (f : Flow) (code : RecoveryCode)
    (codes₂ : List RecoveryCode)
    (h : useRecoveryCode w.codes f.id body.code w.now = some (code, codes₂))
    (h2 : ({ w with codes := codes₂ } : World).findIdentity code.identityID = none) :
    recoveryUseCode w req body f =
      { world := { w with codes := codes₂ }
        result := .failure .identityNotFound
        trace := [.useCode f.id body.code] } := by
  unfold recoveryUseCode
  simp only [h, h2]

/-- The success branch of `recoveryUseCode`: mark the address verified for
a self-service code, then issue the session. -/
theorem recoveryUseCode_success (w : World) (req : Request)
    (body : RecoverySubmitPayload) (f : Flow) (code : RecoveryCode)
    (codes₂ : List RecoveryCode) (ident : Identity)
    (h : useRecoveryCode w.codes f.id body.code w.now = some (code, codes₂))
    (h2 : ({ w with codes := codes₂ } : World).findIdentity code.identityID =
      some ident) :
    recoveryUseCode w req body f =
      (fun out => { out with trace := Event.useCode f.id body.code :: out.trace })
        (recoveryIssueSession
          (if (code.codeType == RecoveryCodeType.selfService) = true
           then ({ w with codes := codes₂ } : World).updateIdentity
             (markRecoveryAddressVerified ident code.recoveryAddress w.now)
           else { w with codes := codes₂ }) req f ident) := by
  unfold recoveryUseCode
  simp only [h, h2]

/-- The use-code path either leaves the flow store alone or replaces the
submitted flow with one of state rank at least as high. -/
theorem recoveryUseCode_flows_shape (w : World) (req : Request)
    (body : RecoverySubmitPayload) (f : Flow) :
    (recoveryUseCode w req body f).world.flows = w.flows
  ∨ (∃ f₂ : Flow, f₂.id = f.id ∧ stateRank f.state ≤ stateRank f₂.state ∧
       (recoveryUseCode w req body f).world.flows = (w.updateFlow f₂).flows) := by
  rcases h : useRecoveryCode w.codes f.id body.code w.now with _ | ⟨code, codes₂⟩
  · right
    rw [recoveryUseCode_notFound w req body f h]
    exact ⟨{ f with messages := [Message.codeInvalidOrAlreadyUsed] }, rfl, le_refl _, rfl⟩
  · rcases h2 : ({ w with codes := codes₂ } : World).findIdentity code.identityID
      with _ | ident
    · left
      rw [recoveryUseCode_noIdentity w req body f code codes₂ h h2]
    · right
      rw [recoveryUseCode_success w req body f code codes₂ ident h h2]
      refine ⟨{ f with
                  messages := []
                  state := .passedChallenge
                  csrfToken := req.regenToken
                  recoveredIdentityID := some ident.id },
        rfl, stateRank_le_two f.state, ?_⟩
      by_cases hct : (code.codeType == RecoveryCodeType.selfService) = true
      · rw [if_pos hct]
        rfl
      · rw [if_neg hct]
        rfl

/-- The form-submission path either leaves the flow store alone or replaces
the submitted flow with its `EmailSent` successor. -/
theorem recoveryHandleFormSubmission_flows_shape (w : World) (req : Request)
    (f : Flow) (body : RecoverySubmitPayload) (cfg : Config) :
    (recoveryHandleFormSubmission w req f body cfg).world.flows = w.flows
  ∨ (∃ f₂ : Flow, f₂.id = f.id ∧ f₂.state = RecoveryState.emailSent ∧
       (recoveryHandleFormSubmission w req f body cfg).world.flows =
         (w.updateFlow f₂).flows) := by
  unfold recoveryHandleFormSubmission
  split
  · left
    rfl
  · split
    · left
      rfl
    · right
      refine ⟨{ f with
                  active := some recoveryNodeGroup
                  state := .emailSent
                  messages := [Message.recoveryEmailWithCodeSent] }, rfl, rfl, ?_⟩
      rcases hs : sendRecoveryCode
          { w with codes := deleteRecoveryCodesOfFlow w.codes f.id } f
          body.email req.freshCode cfg with _ | w₂
      · simp only [hs]
        rfl
      · have hw₂ := sendRecoveryCode_parts _ _ _ _ _ _ hs
        simp only [hs, World.updateFlow]
        rw [hw₂.1]

/-- Every run of `Recover` leaves the flow store alone, appends one fresh
flow, or replaces one flow (the submitted one or the fetched one) by a flow
of state rank at least as high. -/
theorem recover_flows_shape (w : World) (req : Request) (f : Flow)
    (cfg : Config) :
    (recover w req f cfg).world.flows = w.flows
  ∨ (∃ nf : Flow, nf.id = w.nextFlowID ∧
       (recover w req f cfg).world.flows = w.flows ++ [nf])
  ∨ (∃ fPre f₂ : Flow, (fPre = f ∨ fPre ∈ w.flows) ∧ f₂.id = fPre.id ∧
       stateRank fPre.state ≤ stateRank f₂.state ∧
       (recover w req f cfg).world.flows = (w.updateFlow f₂).flows) := by
  unfold recover
  split
  · left
    rfl
  · split
    · left
      rfl
    · rename_i body hbody
      split
      · -- CSRF violation: error-driven retry
        right
        left
        rw [retryError_spec]
        exact ⟨_, rfl, rfl⟩
      · split
        · -- use-code dispatch
          split
          · left
            rfl
          · rcases recoveryUseCode_flows_shape w req body { f with messages := [] }
              with h | ⟨f₂, hid, hrank, hflows⟩
            · left
              exact h
            · right
              right
              exact ⟨f, f₂, Or.inl rfl, hid, hrank, hflows⟩
        · split
          · left
            rfl
          · split
            · left
              rfl
            · split
              · left
                rfl
              · rename_i fl hfind
                split
                · left
                  rfl
                · have hflmem : fl ∈ w.flows := List.mem_of_find?_eq_some hfind
                  split
                  · rename_i hstate
                    rcases recoveryHandleFormSubmission_flows_shape w req fl body cfg
                      with h | ⟨f₂, hid, hstate₂, hflows⟩
                    · left
                      exact h
                    · right
                      right
                      refine ⟨fl, f₂, Or.inr hflmem, hid, ?_, hflows⟩
                      rw [hstate₂, hstate]
                      decide
                  · rename_i hstate
                    rcases recoveryHandleFormSubmission_flows_shape w req fl body cfg
                      with h | ⟨f₂, hid, hstate₂, hflows⟩
                    · left
                      exact h
                    · right
                      right
                      refine ⟨fl, f₂, Or.inr hflmem, hid, ?_, hflows⟩
                      rw [hstate₂, hstate]
                  · right
                    left
                    exact ⟨_, rfl, rfl⟩
                  · right
                    left
                    exact ⟨_, rfl, rfl⟩

/-- Counterexample for C2 as stated: a code-only submission to a flow
already in `PassedChallenge` is routed to the use-code path and, on
`CodeNotFound`, rewrites the stored terminal flow's UI messages in place —
the flow *is* mutated, no brand-new flow is produced, and the handler
returns no error. -/
theorem passed_challenge_mutation_counterexample :
    (recover wPC reqWrongCode flowPC cfgEx).world.flows =
      [{ flowPC with messages := [Message.codeInvalidOrAlreadyUsed] }]
  ∧ (recover wPC reqWrongCode flowPC cfgEx).world.flows.length = wPC.flows.length
  ∧ ({ flowPC with messages := [Message.codeInvalidOrAlreadyUsed] } : Flow) ≠ flowPC
  ∧ (recover wPC reqWrongCode flowPC cfgEx).result = RecoverResult.ok := by
  refine ⟨by decide, by decide, by decide, by decide⟩

/-- Claim C2 (amended): the state machine never regresses — every run of
`Recover` leaves each stored flow with a state rank at least as high as
before — and a submission carrying an email to a flow already in
`PassedChallenge` leaves every stored flow untouched and only appends a
brand-new flow carrying the retry-success message.  A *code-only*
submission to a `PassedChallenge` flow, however, is routed to the use-code
path and may rewrite that flow's UI messages in place (its state still
never regresses). -/
theorem recovery_state_monotonic_amended :
    (∀ (w : World) (req : Request) (f : Flow) (cfg : Config) (g g₂ : Flow),
       f ∈ w.flows →
       (w.flows.map Flow.id).Nodup →
       (∀ h ∈ w.flows, h.id < w.nextFlowID) →
       g ∈ w.flows →
       g₂ ∈ (recover w req f cfg).world.flows →
       g₂.id = g.id →
       stateRank g.state ≤ stateRank g₂.state)
  ∧ (∀ (w : World) (req : Request) (f : Flow) (cfg : Config)
       (body : RecoverySubmitPayload) (fl : Flow),
       isCodeFlow f = true →
       req.body = some body →
       (if f.dangerousSkipCSRFCheck then none
        else ensureCSRF f.ftype cfg.disableAPIFlowEnforcement req.genToken
          body.csrfToken req.hasOriginHeader req.hasNonCfCookie) = none →
       (body.email == "") = false →
       req.hasSession = false →
       methodEnabledAndAllowed .recovery recoveryStrategyID body.method cfg = none →
       w.findFlow body.flow = some fl →
       ¬ fl.expiresAt ≤ w.now →
       fl.state = RecoveryState.passedChallenge →
       (recover w req f cfg).world.flows =
         w.flows ++ [{ newRecoveryFlow w req fl.ftype cfg with
                         messages := [Message.retrySuccess] }]
     ∧ (recover w req f cfg).result = .completed (.redirectNewFlow w.nextFlowID)
     ∧ ∀ g ∈ w.flows, g ∈ (recover w req f cfg).world.flows) := by
  constructor
  · intro w req f cfg g g₂ hf hnd hfresh hg hg₂ hid
    rcases recover_flows_shape w req f cfg with h | ⟨nf, hnf, h⟩ |
      ⟨fPre, f₂, hPre, hid₂, hrank, h⟩
    · rw [h] at hg₂
      rw [flows_id_inj hnd hg₂ hg hid]
    · rw [h] at hg₂
      rcases List.mem_append.mp hg₂ with h2 | h2
      · rw [flows_id_inj hnd h2 hg hid]
      · exfalso
        have hgid : g.id < w.nextFlowID := hfresh g hg
        have : g₂ = nf := by simpa using h2
        rw [this, hnf] at hid
        omega
    · rw [h] at hg₂
      have hPre₂ : fPre ∈ w.flows := hPre.elim (fun e => e ▸ hf) id
      rcases mem_updateFlow_flows hg₂ with he | ⟨hgm, _⟩
      · have hgfPre : g = fPre := by
          apply flows_id_inj hnd hg hPre₂
          rw [← hid, he, hid₂]
        rw [hgfPre, he]
        exact hrank
      · rw [flows_id_inj hnd hgm hg hid]
  · intro w req f cfg body fl hactive hbody hcsrf hemail hsession hgate hfind
      hvalid hstate
    have hbranch : ((f.state != RecoveryState.chooseMethod) && (body.email == "")) = false := by
      rw [hemail, Bool.and_false]
    rw [recover_to_retryMessage w req f cfg body fl hactive hbody hcsrf hbranch
      hsession hgate hfind hvalid hstate]
    exact ⟨rfl, rfl, fun g hg => List.mem_append_left _ hg⟩

/-- Witness for C2 at concrete runs on the terminal flow. -/
theorem recovery_state_monotonic_witness :
    stateRank flowPC.state ≤
      stateRank ({ flowPC with messages := [Message.codeInvalidOrAlreadyUsed] } : Flow).state
  ∧ (recover wPC reqEmail flowPC cfgEx).world.flows =
      wPC.flows ++ [{ newRecoveryFlow wPC reqEmail flowPC.ftype cfgEx with
                        messages := [Message.retrySuccess] }] := by
  constructor
  · exact recovery_state_monotonic_amended.1 wPC reqWrongCode flowPC cfgEx flowPC
      { flowPC with messages := [Message.codeInvalidOrAlreadyUsed] }
      (by decide) (by decide) (by decide) (by decide) (by decide) (by decide)
  · exact (recovery_state_monotonic_amended.2 wPC reqEmail flowPC cfgEx
      { method := "code", code := "", csrfToken := "tok", flow := 1, email := "a@x.com" }
      flowPC (by decide) rfl (by decide) (by decide) (by decide) (by decide)
      (by decide) (by decide) rfl).1

/-! ### Claim C5: anti-enumeration -/

/-- Outcome of a successful email (resend) submission: the flow advances to
`EmailSent` with the email-sent message, the result is `nil`, the sessions
are untouched and the trace is fixed — none of it depends on whether the
address is bound. -/
theorem recoveryHandleFormSubmission_outcome (w : World) (req : Request)
    (f : Flow) (body : RecoverySubmitPayload) (cfg : Config)
    (hemail : (body.email == "") = false)
    (hcsrf : ensureCSRF f.ftype cfg.disableAPIFlowEnforcement req.genToken
      body.csrfToken req.hasOriginHeader req.hasNonCfCookie = none) :
    (recoveryHandleFormSubmission w req f body cfg).result = .ok
  ∧ (recoveryHandleFormSubmission w req f body cfg).world.flows =
      w.flows.map (fun g => if g.id == f.id then
        { f with active := some recoveryNodeGroup
                 state := .emailSent
                 messages := [Message.recoveryEmailWithCodeSent] } else g)
  ∧ (recoveryHandleFormSubmission w req f body cfg).world.sessions = w.sessions
  ∧ (recoveryHandleFormSubmission w req f body cfg).trace =
      [.deleteCodes f.id, .sendCode f.id body.email, .updateFlow f.id] := by
  unfold recoveryHandleFormSubmission
  rw [hemail]
  simp only [Bool.false_eq_true, if_false, hcsrf]
  rcases hs : sendRecoveryCode
      { w with codes := deleteRecoveryCodesOfFlow w.codes f.id } f
      body.email req.freshCode cfg with _ | wZ
  · simp only [hs]
    refine ⟨by trivial, by trivial, by trivial, by trivial⟩
  · have hp := sendRecoveryCode_parts _ _ _ _ _ _ hs
    simp only [hs]
    refine ⟨by trivial, ?_, ?_, by trivial⟩
    · simp only [World.updateFlow]
      rw [hp.1]
    · exact hp.2.2.1

/-- Claim C5: two runs that differ only in whether the submitted address is
bound to a known identity produce the same result and the same flow store:
the flow — whether the initial `ChooseMethod` submission or an `EmailSent`
resend — transitions to `EmailSent` carrying the same email-sent message,
and no error is surfaced — the unknown-address error is swallowed. -/
theorem anti_enumeration (w₁ w₂ : World) (req : Request) (f fl : Flow)
    (cfg : Config) (body : RecoverySubmitPayload)
    (hflows : w₁.flows = w₂.flows)
    (hnow : w₁.now = w₂.now)
    (hactive : isCodeFlow f = true)
    (hbody : req.body = some body)
    (hcsrf : (if f.dangerousSkipCSRFCheck then none
              else ensureCSRF f.ftype cfg.disableAPIFlowEnforcement req.genToken
                body.csrfToken req.hasOriginHeader req.hasNonCfCookie) = none)
    (hemail : (body.email == "") = false)
    (hsession : req.hasSession = false)
    (hgate : methodEnabledAndAllowed .recovery recoveryStrategyID
      body.method cfg = none)
    (hfind : w₁.findFlow body.flow = some fl)
    (hvalid : ¬ fl.expiresAt ≤ w₁.now)
    (hstate : fl.state = RecoveryState.chooseMethod ∨
      fl.state = RecoveryState.emailSent)
    (hcsrf₂ : ensureCSRF fl.ftype cfg.disableAPIFlowEnforcement req.genToken
      body.csrfToken req.hasOriginHeader req.hasNonCfCookie = none)
    (hbound : ∃ i ∈ w₁.identities, body.email ∈ i.recoveryAddresses)
    (hunbound : ∀ i ∈ w₂.identities, body.email ∉ i.recoveryAddresses) :
    (recover w₁ req f cfg).result = (recover w₂ req f cfg).result
  ∧ (recover w₁ req f cfg).world.flows = (recover w₂ req f cfg).world.flows
  ∧ (recover w₁ req f cfg).result = .ok
  ∧ (∀ g ∈ (recover w₁ req f cfg).world.flows, g.id = fl.id →
       g.state = .emailSent ∧ g.messages = [Message.recoveryEmailWithCodeSent]) := by
  have hbranch : ((f.state != RecoveryState.chooseMethod) && (body.email == "")) = false := by
    rw [hemail, Bool.and_false]
  have hfind₂ : w₂.findFlow body.flow = some fl := by
    unfold World.findFlow at hfind ⊢
    rw [← hflows]
    exact hfind
  have hvalid₂ : ¬ fl.expiresAt ≤ w₂.now := by
    rw [← hnow]
    exact hvalid
  rw [recover_to_formSubmission w₁ req f cfg body fl hactive hbody hcsrf hbranch
    hsession hgate hfind hvalid hstate]
  rw [recover_to_formSubmission w₂ req f cfg body fl hactive hbody hcsrf hbranch
    hsession hgate hfind₂ hvalid₂ hstate]
  have o₁ := recoveryHandleFormSubmission_outcome w₁ req fl body cfg hemail hcsrf₂
  have o₂ := recoveryHandleFormSubmission_outcome w₂ req fl body cfg hemail hcsrf₂
  refine ⟨?_, ?_, o₁.1, ?_⟩
  · rw [o₁.1, o₂.1]
  · rw [o₁.2.1, o₂.2.1, hflows]
  · intro g hg hgid
    rw [o₁.2.1] at hg
    simp only [List.mem_map] at hg
    obtain ⟨g₁, hg₁, heq⟩ := hg
    by_cases hc : (g₁.id == fl.id) = true
    · rw [if_pos hc] at heq
      rw [← heq]
      exact ⟨rfl, rfl⟩
    · rw [if_neg hc] at heq
      exfalso
      rw [← heq] at hgid
      have hne : g₁.id ≠ fl.id := by simpa using hc
      exact hne hgid

/-! ### Claim C6: successful consumption -/

/-- Applying `markAddressList` to a list whose first match is unverified: exactly
that address is marked verified with a timestamp and completed status. -/
theorem markAddressList_first (addr : String) (now : Nat)
    (pre post : List VerifiableAddress) (va : VerifiableAddress)
    (hpre : ∀ u ∈ pre, (u.value == addr) = false)
    (hva : (va.value == addr) = true)
    (hunv : va.verified = false) :
    markAddressList addr now (pre ++ va :: post) =
      pre ++ { va with verified := true
                       verifiedAt := some now
                       status := "completed" } :: post := by
  induction pre with
  | nil =>
    simp only [List.nil_append, markAddressList]
    rw [if_pos hva, if_neg (by simp [hunv])]
  | cons u us ih =>
    simp only [List.cons_append, markAddressList]
    rw [if_neg (by simp [hpre u (List.mem_cons_self u us)])]
    exact congrArg (List.cons u) (ih (fun x hx => hpre x (List.mem_cons_of_mem u hx)))

/-- Claim C6: on a successful code consumption the bound identity is looked
up; if and only if the code is self-service, its first matching unverified
verifiable address is marked verified with a verification timestamp; the
flow is set to `PassedChallenge` with `RecoveredIdentityID` recorded, and a
session for that identity is issued at assurance level "aal1" with
credential type "code_recovery". -/
theorem successful_consumption (w : World) (req : Request) (f : Flow)
    (cfg : Config) (body : RecoverySubmitPayload) (code : RecoveryCode)
    (codes₂ : List RecoveryCode) (ident : Identity)
    (hactive : isCodeFlow f = true)
    (hbody : req.body = some body)
    (hcsrf : (if f.dangerousSkipCSRFCheck then none
              else ensureCSRF f.ftype cfg.disableAPIFlowEnforcement req.genToken
                body.csrfToken req.hasOriginHeader req.hasNonCfCookie) = none)
    (hbranch : ((f.state != RecoveryState.chooseMethod) && (body.email == "")) = true)
    (henabled : cfg.codeEnabled = true)
    (huse : useRecoveryCode w.codes f.id body.code w.now = some (code, codes₂))
    (hident : ({ w with codes := codes₂ } : World).findIdentity code.identityID =
      some ident) :
    (code.codeType = RecoveryCodeType.selfService →
       ∀ (pre post : List VerifiableAddress) (va : VerifiableAddress),
       ident.verifiableAddresses = pre ++ va :: post →
       (∀ u ∈ pre, (u.value == code.recoveryAddress) = false) →
       (va.value == code.recoveryAddress) = true →
       va.verified = false →
       (recover w req f cfg).world.identities =
         w.identities.map (fun j => if j.id == ident.id then
           { ident with verifiableAddresses :=
               pre ++ { va with verified := true
                                verifiedAt := some w.now
                                status := "completed" } :: post }
           else j))
  ∧ (code.codeType = RecoveryCodeType.administrative →
       (recover w req f cfg).world.identities = w.identities)
  ∧ (∀ g ∈ (recover w req f cfg).world.flows, g.id = f.id →
       g.state = RecoveryState.passedChallenge ∧
       g.recoveredIdentityID = some ident.id)
  ∧ (recover w req f cfg).world.sessions =
      w.sessions ++ [{ identityID := ident.id, aal := "aal1",
                       credentialType := "code_recovery" }]
  ∧ (recover w req f cfg).result = .completed (.settingsRedirect f.id) := by
  rw [recover_to_useCode w req f cfg body hactive hbody hcsrf hbranch
    (recovery_gate_none cfg henabled)]
  rw [recoveryUseCode_success w req body { f with messages := [] } code codes₂
    ident huse hident]
  refine ⟨?_, ?_, ?_, ?_, ?_⟩
  · intro hsc pre post va haddr hpreva hva hunv
    have hct : (code.codeType == RecoveryCodeType.selfService) = true := by
      rw [hsc]
      rfl
    rw [if_pos hct]
    have hmark : markRecoveryAddressVerified ident code.recoveryAddress w.now =
        { ident with verifiableAddresses :=
            pre ++ { va with verified := true
                             verifiedAt := some w.now
                             status := "completed" } :: post } := by
      unfold markRecoveryAddressVerified
      rw [haddr, markAddressList_first _ _ _ _ _ hpreva hva hunv]
    rw [hmark]
    rfl
  · intro hadm
    have hct : (code.codeType == RecoveryCodeType.selfService) = false := by
      rw [hadm]
      rfl
    rw [hct]
    rfl
  · intro g hg hgid
    by_cases hct : (code.codeType == RecoveryCodeType.selfService) = true
    · rw [if_pos hct] at hg
      rcases mem_updateFlow_flows hg with he | ⟨_, hne⟩
      · rw [he]
        exact ⟨rfl, rfl⟩
      · exfalso
        have : g.id ≠ f.id := by simpa using hne
        exact this hgid
    · rw [if_neg hct] at hg
      rcases mem_updateFlow_flows hg with he | ⟨_, hne⟩
      · rw [he]
        exact ⟨rfl, rfl⟩
      · exfalso
        have : g.id ≠ f.id := by simpa using hne
        exact this hgid
  · by_cases hct : (code.codeType == RecoveryCodeType.selfService) = true
    · rw [if_pos hct]
      rfl
    · rw [if_neg hct]
      rfl
  · rfl

/-- Witness for C6 at the concrete happy-path run. -/
theorem successful_consumption_witness :
    (recover wES reqCode flowES cfgEx).world.sessions =
      wES.sessions ++ [{ identityID := 7, aal := "aal1",
                         credentialType := "code_recovery" }]
  ∧ (recover wES reqCode flowES cfgEx).world.identities =
      wES.identities.map (fun j => if j.id == identEx.id then
        { identEx with verifiableAddresses :=
            [{ value := "a@x.com", verified := true, verifiedAt := some 10,
               status := "completed" }] }
        else j)
  ∧ (recover wES reqCode flowES cfgEx).result =
      .completed (.settingsRedirect 1) := by
  have h := successful_consumption wES reqCode flowES cfgEx
    { method := "code", code := "123456", csrfToken := "tok", flow := 1, email := "" }
    { codeEx with usedAt := some 10 } [{ codeEx with usedAt := some 10 }] identEx
    (by decide) rfl rfl (by decide) rfl (by decide) (by decide)
  refine ⟨h.2.2.2.1, ?_, h.2.2.2.2⟩
  have h1 := h.1 rfl []
    [] { value := "a@x.com", verified := false, verifiedAt := none, status := "pending" }
    (by decide) (by simp) (by decide) rfl
  rw [h1]
  rfl

/-! ### Claim C4: resend invalidation -/

/-- Deleting a flow's codes leaves no code of that flow behind. -/
theorem deleteCodes_no_flow_match (codes : List RecoveryCode) (fid : Nat) :
    ∀ c ∈ deleteRecoveryCodesOfFlow codes fid, (c.flowID == fid) = false := by
  intro c hc
  unfold deleteRecoveryCodesOfFlow at hc
  have h := (List.mem_filter.mp hc).2
  simpa using h

/-- A code of a different flow is never a live match for this flow. -/
theorem isLiveMatch_false_of_flow (fid : Nat) (v : String) (now : Nat)
    (c : RecoveryCode) (h : (c.flowID == fid) = false) :
    RecoveryCode.isLiveMatch fid v now c = false := by
  unfold RecoveryCode.isLiveMatch
  rw [h]
  simp

/-- A code of a different value is never a live match for this value. -/
theorem isLiveMatch_false_of_value (fid : Nat) (v : String) (now : Nat)
    (c : RecoveryCode) (h : (c.value == v) = false) :
    RecoveryCode.isLiveMatch fid v now c = false := by
  unfold RecoveryCode.isLiveMatch
  rw [h]
  simp

/-- What the modelled sender does to the code store: appends exactly one
fresh, unused, self-service code for the flow. -/
theorem sendRecoveryCode_codes (w : World) (f : Flow) (email fc : String)
    (cfg : Config) (w₂ : World)
    (h : sendRecoveryCode w f email fc cfg = some w₂) :
    ∃ iid : Nat, w₂.codes = w.codes ++
      [{ flowID := f.id, value := fc, usedAt := none,
         expiresAt := w.now + cfg.codeLifespan, identityID := iid,
         recoveryAddress := email, codeType := .selfService }] := by
  unfold sendRecoveryCode at h
  split at h
  · simp at h
  · rename_i i hfi
    simp only [Option.some.injEq] at h
    exact ⟨i.id, by rw [← h]⟩

/-- Claim C4: a resend first deletes every code previously issued for the
flow and only then issues the fresh one, so afterwards at most one live
code exists for the flow, and consuming any previously issued code (whose
value differs from the fresh one) yields `CodeNotFound` at any time. -/
theorem resend_invalidation (w : World) (req : Request) (f : Flow)
    (body : RecoverySubmitPayload) (cfg : Config) (pc : RecoveryCode)
    (hemail : (body.email == "") = false)
    (hcsrf : ensureCSRF f.ftype cfg.disableAPIFlowEnforcement req.genToken
      body.csrfToken req.hasOriginHeader req.hasNonCfCookie = none)
    (hpc : pc ∈ w.codes) (hpcflow : pc.flowID = f.id)
    (hpcval : (pc.value == req.freshCode) = false) :
    ((recoveryHandleFormSubmission w req f body cfg).world.codes.filter
        (fun c => c.flowID == f.id)).length ≤ 1
  ∧ (∀ t : Nat, useRecoveryCode
        (recoveryHandleFormSubmission w req f body cfg).world.codes
        f.id pc.value t = none)
  ∧ (recoveryHandleFormSubmission w req f body cfg).trace =
      [.deleteCodes f.id, .sendCode f.id body.email, .updateFlow f.id] := by
  unfold recoveryHandleFormSubmission
  rw [hemail]
  simp only [Bool.false_eq_true, if_false, hcsrf]
  rcases hs : sendRecoveryCode
      { w with codes := deleteRecoveryCodesOfFlow w.codes f.id } f
      body.email req.freshCode cfg with _ | wZ
  · simp only [hs]
    have hdel := deleteCodes_no_flow_match w.codes f.id
    refine ⟨?_, ?_, by trivial⟩
    · have : (deleteRecoveryCodesOfFlow w.codes f.id).filter
          (fun c => c.flowID == f.id) = [] := by
        apply List.filter_eq_nil.mpr
        intro c hc
        simp [hdel c hc]
      simp only [World.updateFlow]
      rw [this]
      simp
    · intro t
      rw [useRecoveryCode_eq_none_iff]
      apply List.find?_eq_none.mpr
      intro c hc
      simp [isLiveMatch_false_of_flow f.id pc.value t c (hdel c hc)]
  · obtain ⟨iid, hcodes⟩ := sendRecoveryCode_codes _ _ _ _ _ _ hs
    simp only [hs]
    have hdel := deleteCodes_no_flow_match w.codes f.id
    refine ⟨?_, ?_, by trivial⟩
    · simp only [World.updateFlow]
      rw [hcodes]
      rw [List.filter_append]
      have h1 : (deleteRecoveryCodesOfFlow w.codes f.id).filter
          (fun c => c.flowID == f.id) = [] := by
        apply List.filter_eq_nil.mpr
        intro c hc
        simp [hdel c hc]
      rw [h1]
      simp
    · intro t
      rw [useRecoveryCode_eq_none_iff]
      apply List.find?_eq_none.mpr
      intro c hc
      simp only [World.updateFlow] at hc
      rw [hcodes] at hc
      rcases List.mem_append.mp hc with h2 | h2
      · simp [isLiveMatch_false_of_flow f.id pc.value t c (hdel c h2)]
      · have h3 := List.mem_singleton.mp h2
        have hcval : c.value = req.freshCode := by rw [h3]
        have hvals : (c.value == pc.value) = false := by
          rw [hcval]
          have hne : ¬ pc.value = req.freshCode := by simpa using hpcval
          simp
          intro hcontra
          exact hne hcontra.symm
        simp [isLiveMatch_false_of_value f.id pc.value t c hvals]

/-- Witness for C4 at the concrete resend over a live prior code. -/
theorem resend_invalidation_witness :
    (∀ t : Nat, t ≤ 200 →
      useRecoveryCode
        (recoveryHandleFormSubmission wES reqEmail flowES
          { method := "code", code := "", csrfToken := "tok", flow := 1,
            email := "a@x.com" } cfgEx).world.codes
        1 "123456" t = none) ∧
    (recoveryHandleFormSubmission wES reqEmail flowES
      { method := "code", code := "", csrfToken := "tok", flow := 1,
        email := "a@x.com" } cfgEx).trace =
      [.deleteCodes 1, .sendCode 1 "a@x.com", .updateFlow 1] := by
  have h := resend_invalidation wES reqEmail flowES
    { method := "code", code := "", csrfToken := "tok", flow := 1, email := "a@x.com" }
    cfgEx codeEx (by decide) rfl (by decide) rfl (by decide)
  exact ⟨fun t _ => h.2.1 t, h.2.2⟩

/-! ### Claim C10: dispatch between the resend and use-code paths -/

/-- The form-submission path never consumes a code. -/
theorem recoveryHandleFormSubmission_no_useCode (w : World) (req : Request)
    (f : Flow) (body : RecoverySubmitPayload) (cfg : Config) (fid : Nat)
    (v : String) :
    Event.useCode fid v ∉ (recoveryHandleFormSubmission w req f body cfg).trace := by
  unfold recoveryHandleFormSubmission
  split
  · simp
  · split
    · simp
    · simp

/-- A code-only submission in `ChooseMethod` state reaches the
form-submission path, which immediately rejects it: email required. -/
theorem recoveryHandleFormSubmission_noEmail (w : World) (req : Request)
    (f : Flow) (body : RecoverySubmitPayload) (cfg : Config)
    (hemail : (body.email == "") = true) :
    recoveryHandleFormSubmission w req f body cfg =
      { world := w, result := .failure .requiredEmail, trace := [] } := by
  unfold recoveryHandleFormSubmission
  rw [if_pos hemail]

/-- A run of `Recover` either never consumes a code, or it took the
use-code dispatch: the decoded body had no email and the submitted flow was
past `ChooseMethod`. -/
theorem recover_useCode_trace (w : World) (req : Request) (f : Flow)
    (cfg : Config) :
    (∀ fid v, Event.useCode fid v ∉ (recover w req f cfg).trace)
  ∨ (∃ body : RecoverySubmitPayload, req.body = some body ∧
      ((f.state != RecoveryState.chooseMethod) && (body.email == "")) = true ∧
      (recover w req f cfg).trace =
        (recoveryUseCode w req body { f with messages := [] }).trace) := by
  unfold recover
  split
  · left
    simp
  · split
    · left
      simp
    · rename_i body hbody
      split
      · left
        intro fid v
        rw [retryError_spec]
        simp [retryRecoveryFlowWithMessage]
      · split
        · rename_i hcond
          split
          · left
            simp
          · right
            exact ⟨body, hbody, hcond, rfl⟩
        · split
          · left
            simp
          · split
            · left
              simp
            · split
              · left
                simp
              · rename_i fl hfind
                split
                · left
                  simp
                · split
                  · left
                    intro fid v
                    exact recoveryHandleFormSubmission_no_useCode w req fl body cfg fid v
                  · left
                    intro fid v
                    exact recoveryHandleFormSubmission_no_useCode w req fl body cfg fid v
                  · left
                    intro fid v
                    simp [retryRecoveryFlowWithMessage]
                  · left
                    intro fid v
                    simp [retryRecoveryFlowWithMessage]

/-- Claim C10: a submission with a non-empty email never consumes a code —
even if it also carries one; a code is consumed only when the email field
is empty and the flow is past `ChooseMethod`; a code-only submission to a
`ChooseMethod` flow fails with the email-required validation error without
touching the world; and an email submission on the happy path reaches the
code sender. -/
theorem email_routes_resend :
    (∀ (w : World) (req : Request) (f : Flow) (cfg : Config)
       (body : RecoverySubmitPayload),
       req.body = some body → (body.email == "") = false →
       ∀ fid v, Event.useCode fid v ∉ (recover w req f cfg).trace)
  ∧ (∀ (w : World) (req : Request) (f : Flow) (cfg : Config)
       (body : RecoverySubmitPayload) (fid : Nat) (v : String),
       req.body = some body →
       Event.useCode fid v ∈ (recover w req f cfg).trace →
       (body.email == "") = true ∧ f.state ≠ RecoveryState.chooseMethod)
  ∧ (∀ (w : World) (req : Request) (f : Flow) (cfg : Config)
       (body : RecoverySubmitPayload) (fl : Flow),
       isCodeFlow f = true → req.body = some body →
       (if f.dangerousSkipCSRFCheck then none
        else ensureCSRF f.ftype cfg.disableAPIFlowEnforcement req.genToken
          body.csrfToken req.hasOriginHeader req.hasNonCfCookie) = none →
       f.state = RecoveryState.chooseMethod →
       (body.email == "") = true →
       req.hasSession = false →
       methodEnabledAndAllowed .recovery recoveryStrategyID body.method cfg = none →
       w.findFlow body.flow = some fl →
       ¬ fl.expiresAt ≤ w.now →
       fl.state = RecoveryState.chooseMethod →
       (recover w req f cfg).result = .failure .requiredEmail
     ∧ (recover w req f cfg).world = w
     ∧ (recover w req f cfg).trace = [])
  ∧ (∀ (w : World) (req : Request) (f : Flow) (cfg : Config)
       (body : RecoverySubmitPayload) (fl : Flow),
       isCodeFlow f = true → req.body = some body →
       (if f.dangerousSkipCSRFCheck then none
        else ensureCSRF f.ftype cfg.disableAPIFlowEnforcement req.genToken
          body.csrfToken req.hasOriginHeader req.hasNonCfCookie) = none →
       (body.email == "") = false →
       req.hasSession = false →
       methodEnabledAndAllowed .recovery recoveryStrategyID body.method cfg = none →
       w.findFlow body.flow = some fl →
       ¬ fl.expiresAt ≤ w.now →
       (fl.state = RecoveryState.chooseMethod ∨ fl.state = RecoveryState.emailSent) →
       ensureCSRF fl.ftype cfg.disableAPIFlowEnforcement req.genToken
         body.csrfToken req.hasOriginHeader req.hasNonCfCookie = none →
       Event.sendCode fl.id body.email ∈ (recover w req f cfg).trace) := by
  refine ⟨?_, ?_, ?_, ?_⟩
  · intro w req f cfg body hbody hemail fid v
    rcases recover_useCode_trace w req f cfg with h | ⟨body₂, hbody₂, hcond, _⟩
    · exact h fid v
    · have hb : body₂ = body := by
        rw [hbody] at hbody₂
        injection hbody₂ with hb
        exact hb.symm
      rw [hb, hemail, Bool.and_false] at hcond
      exact absurd hcond (by simp)
  · intro w req f cfg body fid v hbody hmem
    rcases recover_useCode_trace w req f cfg with h | ⟨body₂, hbody₂, hcond, _⟩
    · exact absurd hmem (h fid v)
    · have hb : body₂ = body := by
        rw [hbody] at hbody₂
        injection hbody₂ with hb
        exact hb.symm
      rw [hb] at hcond
      rw [Bool.and_eq_true] at hcond
      refine ⟨hcond.2, ?_⟩
      intro hEq
      have h1 := hcond.1
      rw [hEq] at h1
      simp at h1
  · intro w req f cfg body fl hactive hbody hcsrf hstatef hemail hsession hgate
      hfind hvalid hflstate
    have hbranch : ((f.state != RecoveryState.chooseMethod) && (body.email == "")) = false := by
      rw [hstatef]
      simp
    rw [recover_to_formSubmission w req f cfg body fl hactive hbody hcsrf
      hbranch hsession hgate hfind hvalid (Or.inl hflstate)]
    rw [recoveryHandleFormSubmission_noEmail w req fl body cfg hemail]
    exact ⟨rfl, rfl, rfl⟩
  · intro w req f cfg body fl hactive hbody hcsrf hemail hsession hgate hfind
      hvalid hflstate hcsrf₂
    have hbranch : ((f.state != RecoveryState.chooseMethod) && (body.email == "")) = false := by
      rw [hemail, Bool.and_false]
    rw [recover_to_formSubmission w req f cfg body fl hactive hbody hcsrf
      hbranch hsession hgate hfind hvalid hflstate]
    have ho := recoveryHandleFormSubmission_outcome w req fl body cfg hemail hcsrf₂
    rw [ho.2.2.2]
    simp

/-- Witness for C10 at the concrete submissions. -/
theorem email_routes_resend_witness :
    (∀ fid v, Event.useCode fid v ∉ (recover wES reqEmail flowES cfgEx).trace)
  ∧ ((recover wCM reqWrongCode flowCM cfgEx).result =
      RecoverResult.failure RecErr.requiredEmail
    ∧ (recover wCM reqWrongCode flowCM cfgEx).world = wCM)
  ∧ Event.sendCode 1 "a@x.com" ∈ (recover wES reqEmail flowES cfgEx).trace := by
  refine ⟨?_, ?_, ?_⟩
  · exact email_routes_resend.1 wES reqEmail flowES cfgEx
      { method := "code", code := "", csrfToken := "tok", flow := 1, email := "a@x.com" }
      rfl (by decide)
  · have h := email_routes_resend.2.2.1 wCM reqWrongCode flowCM cfgEx
      { method := "code", code := "999999", csrfToken := "tok", flow := 1, email := "" }
      flowCM (by decide) rfl rfl rfl rfl rfl (by decide) (by decide) (by decide) rfl
    exact ⟨h.1, h.2.1⟩
  · exact email_routes_resend.2.2.2 wES reqEmail flowES cfgEx
      { method := "code", code := "", csrfToken := "tok", flow := 1, email := "a@x.com" }
      flowES (by decide) rfl rfl (by decide) rfl (by decide) (by decide)
      (by decide) (Or.inr rfl) rfl

/-- Witness for C5: the bound and the unbound worlds at the concrete email
submission, both for the initial `ChooseMethod` submission and for an
`EmailSent` resend. -/
theorem anti_enumeration_witness :
    ((recover wCM reqEmail flowCM cfgEx).result =
        (recover { wCM with identities := [] } reqEmail flowCM cfgEx).result
      ∧ (recover wCM reqEmail flowCM cfgEx).world.flows =
          (recover { wCM with identities := [] } reqEmail flowCM cfgEx).world.flows)
  ∧ ((recover wES reqEmail flowES cfgEx).result =
        (recover { wES with identities := [] } reqEmail flowES cfgEx).result
      ∧ (recover wES reqEmail flowES cfgEx).world.flows =
          (recover { wES with identities := [] } reqEmail flowES cfgEx).world.flows) := by
  constructor
  · have h := anti_enumeration wCM { wCM with identities := [] } reqEmail flowCM
      flowCM cfgEx
      { method := "code", code := "", csrfToken := "tok", flow := 1, email := "a@x.com" }
      rfl rfl (by decide) rfl rfl (by decide) rfl rfl (by decide) (by decide)
      (Or.inl rfl) rfl (by decide) (by decide)
    exact ⟨h.1, h.2.1⟩
  · have h := anti_enumeration wES { wES with identities := [] } reqEmail flowES
      flowES cfgEx
      { method := "code", code := "", csrfToken := "tok", flow := 1, email := "a@x.com" }
      rfl rfl (by decide) rfl rfl (by decide) rfl rfl (by decide) (by decide)
      (Or.inr rfl) rfl (by decide) (by decide)
    exact ⟨h.1, h.2.1⟩

end Kratos
